import Mathlib

/-!
Shallow embedding of the sprites-js control-channel protocol
(`src/control.ts`), the per-command WebSocket session (`src/websocket.ts`)
and the connection pool (`src/control.ts`), together with theorems that
check the natural-language specification against the code.

Bytes are modelled as `Nat`; TypeScript numbers holding exit codes are
modelled as `Int` (the sentinel value is -1).  EventEmitter emissions are
modelled as explicit event lists returned alongside the successor state.
Timers (keepalive) and real time are not modelled; no claim here depends
on them.
-/

namespace Sprites

/-- A byte of a binary WebSocket message. -/
abbrev Byte := Nat

/-- Stream tags of the non-TTY framing protocol, from `types.ts`
(`enum StreamID { Stdin = 0, Stdout = 1, Stderr = 2, Exit = 3, StdinEOF = 4 }`). -/
inductive StreamID : Type
  | Stdin
  | Stdout
  | Stderr
  | Exit
  | StdinEOF
deriving DecidableEq, Repr

/-- Numeric value of a stream tag, as in `types.ts`. -/
def StreamID.toByte : StreamID → Byte
  | .Stdin => 0
  | .Stdout => 1
  | .Stderr => 2
  | .Exit => 3
  | .StdinEOF => 4

/-- Inverse lookup of `StreamID.toByte`: the tag a first byte denotes, if any. -/
def StreamID.ofByte : Byte → Option StreamID
  | 0 => some .Stdin
  | 1 => some .Stdout
  | 2 => some .Stderr
  | 3 => some .Exit
  | 4 => some .StdinEOF
  | _ => none

/-- Frame encoding, as performed by `OpConn.write` / `WSCommand.writeStdin`
in non-TTY mode: the message is the one-byte tag followed by the payload
(`message[0] = StreamID.Stdin; data.copy(message, 1)`). -/
def encodeFrame (tag : StreamID) (payload : List Byte) : List Byte :=
  tag.toByte :: payload

/-- Frame decoding, as performed by `OpConn.handleData` /
`WSCommand.handleMessage` in non-TTY mode: byte 0 is the tag
(`data[0]`), bytes 1..n are the payload (`data.subarray(1)`); an empty
buffer yields nothing (`if (data.length === 0) return`). -/
def decodeFrame : List Byte → Option (Byte × List Byte)
  | [] => none
  | b :: rest => some (b, rest)

/-- Frame decoding resolved to a stream tag: the first byte looked up as a
`StreamID`, paired with the remaining payload. -/
def decodeFrameTagged (data : List Byte) : Option (StreamID × List Byte) :=
  (decodeFrame data).bind fun p => (StreamID.ofByte p.1).map fun t => (t, p.2)

/-- Exit code carried by an `Exit` frame: the first payload byte, or 0 when
the payload is empty (`payload.length > 0 ? payload[0] : 0`). -/
def exitPayloadCode : List Byte → Int
  | [] => 0
  | b :: _ => (b : Int)

/-- Events an `OpConn` (or `WSCommand`) emits on its EventEmitter. -/
inductive OpEvent : Type
  | stdout (payload : List Byte)
  | stderr (payload : List Byte)
  | exit (code : Int)
  | error (msg : String)
  | close
deriving DecidableEq, Repr

/-- Mutable state of an `OpConn` (`control.ts`): the `closed` flag, the
stored exit code (-1 until known) and the TTY mode fixed at construction. -/
structure OpConnState : Type where
  closed : Bool
  exitCode : Int
  tty : Bool
deriving DecidableEq, Repr

/-- A freshly constructed `OpConn` (`new OpConn(this, options.tty || false)`):
not closed, exit code -1. -/
def OpConnState.fresh (tty : Bool) : OpConnState :=
  { closed := false, exitCode := -1, tty := tty }

/-- Model of `OpConn.handleData`: in TTY mode raw data is emitted as stdout; in
non-TTY mode an empty buffer is ignored, otherwise the first byte selects
the stream: `Stdout`/`Stderr` payloads are emitted, an `Exit` frame stores
the exit code and emits `exit` but does not close, and any other tag is
dropped. -/
def OpConnState.handleData (st : OpConnState) (data : List Byte) :
    OpConnState × List OpEvent :=
  if st.tty then
    (st, [.stdout data])
  else
    match data with
    | [] => (st, [])
    | streamId :: payload =>
      if streamId = StreamID.Stdout.toByte then
        (st, [.stdout payload])
      else if streamId = StreamID.Stderr.toByte then
        (st, [.stderr payload])
      else if streamId = StreamID.Exit.toByte then
        let code := exitPayloadCode payload
        ({ st with exitCode := code }, [.exit code])
      else
        (st, [])

/-- Model of `OpConn.complete(exitCode?)`: a no-op when already closed; otherwise
sets `closed`, overwrites the exit code when one is supplied, and emits
`close`. -/
def OpConnState.complete (st : OpConnState) (exitCode : Option Int) :
    OpConnState × List OpEvent :=
  if st.closed then
    (st, [])
  else
    ({ st with closed := true, exitCode := exitCode.getD st.exitCode }, [.close])

/-- Model of `OpConn.close()`: a no-op when already closed; otherwise sets `closed`
and emits `close`. -/
def OpConnState.closeOp (st : OpConnState) : OpConnState × List OpEvent :=
  if st.closed then
    (st, [])
  else
    ({ st with closed := true }, [.close])

/-- Result of `OpConn.wait()`: resolves immediately with the stored exit
code when the operation is closed, otherwise stays pending until the
`close` event fires. -/
inductive WaitStatus : Type
  | immediate (code : Int)
  | pending
deriving DecidableEq, Repr

/-- Model of `OpConn.wait()` at the moment of the call. -/
def OpConnState.wait (st : OpConnState) : WaitStatus :=
  if st.closed then .immediate st.exitCode else .pending

/-! ## ControlConnection (`control.ts`) -/

/-- A parsed control envelope `{type, op?, args?}`; only the argument
fields the handlers read (`args.exitCode`, `args.error`) are carried. -/
structure ControlMsg : Type where
  type : String
  exitCode : Option Int
  error : Option String
deriving DecidableEq, Repr

/-- Mutable state of a `ControlConnection`: whether the WebSocket handle
exists and is open, the single-operation-in-flight flag `opActive`, the
current `OpConn` (if any), the `closed` flag, and the pool-membership
`poolActive` flag. -/
structure CCState : Type where
  wsOpen : Bool
  opActive : Bool
  opConn : Option OpConnState
  closed : Bool
  poolActive : Bool
deriving DecidableEq, Repr

/-- Model of `ControlConnection.handleControlMessage`, returning the successor
connection state, the events emitted on the current `OpConn`, and the
final state of that `OpConn` as seen by the caller holding a reference
to it (the connection itself drops its reference on `op.complete` /
`op.error`).

`op.complete` calls `opConn.complete(args.exitCode ?? 0)` then clears
`opActive` and `opConn`; `op.error` emits `error` with the server string
(`args.error ?? "unknown error"`) on the `OpConn`, calls
`opConn.complete()` with no code, then clears `opActive` and `opConn`;
any other type is ignored. -/
def CCState.handleControlMessage (st : CCState) (msg : ControlMsg) :
    CCState × List OpEvent × Option OpConnState :=
  if msg.type = "op.complete" then
    match st.opConn with
    | some op =>
      let r := op.complete (some (msg.exitCode.getD 0))
      ({ st with opActive := false, opConn := none }, r.2, some r.1)
    | none =>
      ({ st with opActive := false, opConn := none }, [], none)
  else if msg.type = "op.error" then
    match st.opConn with
    | some op =>
      let errMsg := msg.error.getD "unknown error"
      let r := op.complete none
      ({ st with opActive := false, opConn := none },
        OpEvent.error errMsg :: r.2, some r.1)
    | none =>
      ({ st with opActive := false, opConn := none }, [], none)
  else
    (st, [], st.opConn)

/-- A binary data frame routed by `ControlConnection.handleMessage` to the
current `OpConn` (`this.opConn.handleData(...)`); dropped when no
operation is current. -/
def CCState.handleDataFrame (st : CCState) (data : List Byte) :
    CCState × List OpEvent :=
  match st.opConn with
  | some op =>
    let r := op.handleData data
    ({ st with opConn := some r.1 }, r.2)
  | none => (st, [])

/-- Model of `ControlConnection.handleClose`: marks the connection closed and closes
the current `OpConn` (without clearing the reference to it). -/
def CCState.handleClose (st : CCState) : CCState × List OpEvent :=
  match st.opConn with
  | some op =>
    let r := op.closeOp
    ({ st with closed := true, opConn := some r.1 }, r.2)
  | none => ({ st with closed := true }, [])

/-- The errors `ControlConnection.startOp` throws. -/
inductive StartOpError : Type
  | connClosed
  | opInProgress
  | wsNotConnected
deriving DecidableEq, Repr

/-- Caller-supplied `StartOpOptions` (`control.ts`).  `tty` is `Bool`
because every use coerces it through JS truthiness (`options.tty || false`,
`if (options.tty)`), under which `undefined` and `false` coincide;
`rows`/`cols` stay optional numbers because `if (options.rows)` also drops
an explicit 0; `stdin` is tested with `!== undefined`, so the option is
kept. -/
structure StartOpOptions : Type where
  cmd : Option (List String)
  env : Option (List String)
  dir : Option String
  tty : Bool
  rows : Option Nat
  cols : Option Nat
  stdin : Option Bool
deriving DecidableEq, Repr

/-- A value in the string-keyed `args` map of an `op.start` envelope:
either a string array (`cmd`, `env`) or a string. -/
inductive ArgValue : Type
  | strs (v : List String)
  | str (v : String)
deriving DecidableEq, Repr

/-- The `args` record `startOp` builds, in insertion order, following the
truthiness guards of the source (`if (options.cmd)`, `if (options.dir)` —
an empty string is falsy, `if (options.rows)` — 0 is falsy, and
`options.stdin !== undefined`). -/
def buildArgs (o : StartOpOptions) : List (String × ArgValue) :=
  (match o.cmd with
   | some c => [("cmd", ArgValue.strs c)]
   | none => []) ++
  (match o.env with
   | some e => [("env", ArgValue.strs e)]
   | none => []) ++
  (match o.dir with
   | some d => if d ≠ "" then [("dir", ArgValue.str d)] else []
   | none => []) ++
  (if o.tty then [("tty", ArgValue.str "true")] else []) ++
  (match o.rows with
   | some r => if r ≠ 0 then [("rows", ArgValue.str (toString r))] else []
   | none => []) ++
  (match o.cols with
   | some c => if c ≠ 0 then [("cols", ArgValue.str (toString c))] else []
   | none => []) ++
  (match o.stdin with
   | some b => [("stdin", ArgValue.str (if b then "true" else "false"))]
   | none => [])

/-- An `op.start` envelope as sent on the wire (type is fixed to
`"op.start"` by `startOp`). -/
structure OpStartMsg : Type where
  op : String
  args : List (String × ArgValue)
deriving DecidableEq, Repr

/-- Model of `ControlConnection.startOp`: throws when the connection is closed, when
an operation is already in progress, or when the WebSocket is not open;
otherwise marks the connection busy, installs a fresh `OpConn`, sends
exactly one `op.start` envelope, and returns the new `OpConn`. -/
def CCState.startOp (st : CCState) (op : String) (o : StartOpOptions) :
    Except StartOpError (CCState × OpConnState × List OpStartMsg) :=
  if st.closed then
    .error .connClosed
  else if st.opActive then
    .error .opInProgress
  else if !st.wsOpen then
    .error .wsNotConnected
  else
    let opConn := OpConnState.fresh o.tty
    .ok ({ st with opActive := true, opConn := some opConn },
      opConn, [⟨op, buildArgs o⟩])

/-- Outcome of the promise a caller of `execFileViaControl` (exec helper in
this repository) builds around an `OpConn`: it rejects on the first
`error` event, and on `close` it settles through `op.wait()` — resolving
when the exit code is 0 and rejecting with an `ExecError` otherwise. -/
inductive CallerOutcome : Type
  | rejectedErr (msg : String)
  | rejectedExec (code : Int)
  | resolved (code : Int)
  | unsettled
deriving DecidableEq, Repr

/-- First-settlement semantics of that caller promise over the emitted
event sequence; `codeAtClose` is the `OpConn` exit code when `close`
fires (what `wait()` resolves with). -/
def callerOutcome (evs : List OpEvent) (codeAtClose : Int) : CallerOutcome :=
  match evs with
  | [] => .unsettled
  | .error m :: _ => .rejectedErr m
  | .close :: _ =>
    if codeAtClose ≠ 0 then .rejectedExec codeAtClose else .resolved codeAtClose
  | _ :: rest => callerOutcome rest codeAtClose

/-! ## WSCommand (`websocket.ts`) -/

/-- Mutable state of a `WSCommand` relevant to the protocol state machine:
TTY mode, stored exit code (-1 until known), the `done` flag, the stored
post-connection transport error (if any), and whether the underlying
WebSocket is open.  Keepalive timers are not modelled. -/
structure WSState : Type where
  tty : Bool
  exitCode : Int
  done : Bool
  closeError : Option String
  wsOpen : Bool
deriving DecidableEq, Repr

/-- A freshly started non-attach `WSCommand` after a successful `start()`. -/
def WSState.fresh (tty : Bool) : WSState :=
  { tty := tty, exitCode := -1, done := false, closeError := none, wsOpen := true }

/-- Model of `WSCommand.handleMessage` on a binary message.  TTY mode emits raw
terminal bytes as stdout.  Non-TTY mode ignores an empty buffer and
otherwise dispatches on the stream tag; an `Exit` frame stores the exit
code, emits `exit` once (guarded by `done`), and calls `this.close()`
(closing the WebSocket). -/
def WSState.handleMessageBin (st : WSState) (data : List Byte) :
    WSState × List OpEvent :=
  if st.tty then
    (st, [.stdout data])
  else
    match data with
    | [] => (st, [])
    | streamId :: payload =>
      if streamId = StreamID.Stdout.toByte then
        (st, [.stdout payload])
      else if streamId = StreamID.Stderr.toByte then
        (st, [.stderr payload])
      else if streamId = StreamID.Exit.toByte then
        let code := exitPayloadCode payload
        let st1 := { st with exitCode := code }
        let r := if !st1.done then
            ({ st1 with done := true }, [OpEvent.exit code])
          else
            (st1, [])
        ({ r.1 with wsOpen := false }, r.2)
      else
        (st, [])

/-- The error message `WSCommand.handleClose` reports when the transport
closed without an exit frame: the stored transport error if one occurred,
else a fresh protocol-violation message naming the close code. -/
def closeErrMsg (st : WSState) (closeCode : Nat) : String :=
  st.closeError.getD
    ("WebSocket closed without exit frame (code " ++ toString closeCode ++ ")")

/-- Model of `WSCommand.handleClose(event)`: a no-op once `done`; otherwise sets
`done`, and (non-TTY, exit code still -1) emits an `error` and no `exit`
regardless of the close code; (TTY, exit code still -1) synthesizes exit
code 0 for close code 1000 and 1 otherwise; else emits `exit` with the
stored code. -/
def WSState.handleClose (st : WSState) (closeCode : Nat) :
    WSState × List OpEvent :=
  if st.done then
    (st, [])
  else
    let st1 := { st with done := true }
    if !st1.tty ∧ st1.exitCode = -1 then
      (st1, [.error (closeErrMsg st1 closeCode)])
    else if st1.tty ∧ st1.exitCode = -1 then
      let code : Int := if closeCode = 1000 then 0 else 1
      ({ st1 with exitCode := code }, [.exit code])
    else
      (st1, [.exit st1.exitCode])

/-- Run a sequence of binary messages through `handleMessageBin`,
collecting the emitted events in order. -/
def WSState.runBin (st : WSState) (msgs : List (List Byte)) :
    WSState × List OpEvent :=
  msgs.foldl (fun acc d =>
    let r := acc.1.handleMessageBin d
    (r.1, acc.2 ++ r.2)) (st, [])

/-! ## ControlPool (`control.ts`) -/

/-- Pool constants from `control.ts` (matching the Go SDK). -/
def MAX_POOL_SIZE : Nat := 100

/-- Roster size above which `release` drains idle connections. -/
def POOL_DRAIN_THRESHOLD : Nat := 20

/-- Roster size drained down to. -/
def POOL_DRAIN_TARGET : Nat := 10

/-- A `ControlConnection` as the pool sees it: object identity (`id`,
standing for JS reference identity), the `poolActive` flag and the
`closed` flag. -/
structure PoolConn : Type where
  id : Nat
  active : Bool
  closed : Bool
deriving DecidableEq, Repr

/-- Pool state: the ordered roster `conns`, the FIFO `waiters` queue
(waiters are identified by caller id; `acquire` pushes at the back,
`release` shifts from the front), the `closed` flag and `maxSize`. -/
structure PoolState : Type where
  conns : List PoolConn
  waiters : List Nat
  closed : Bool
  maxSize : Nat
deriving DecidableEq, Repr

/-- The roster scan at the top of `ControlPool.acquire`: the first
connection that is neither closed nor active
(`!cc.isClosed() && !cc.isActive()`). -/
def findAvail (conns : List PoolConn) : Option PoolConn :=
  conns.find? fun c => !c.closed && !c.active

/-- One step of `ControlPool.tryDrain`'s loop: `cc.close()` followed by
`this.conns = this.conns.filter((c) => c !== cc)` for each idle
connection until `toClose` have been closed (identity is modelled by
`id`). -/
def drainLoop (conns : List PoolConn) : List PoolConn → Nat → List PoolConn
  | [], _ => conns
  | _, 0 => conns
  | cc :: rest, n + 1 => drainLoop (conns.filter fun c => c.id ≠ cc.id) rest n

/-- Model of `ControlPool.tryDrain`: returns unchanged when the pool is closed or
the roster has at most `POOL_DRAIN_THRESHOLD` connections; otherwise
closes idle (non-active, non-closed) connections, removing each from the
roster, until `conns.length - POOL_DRAIN_TARGET` have been closed or no
idle connection remains. -/
def PoolState.tryDrain (p : PoolState) : PoolState :=
  if p.closed ∨ p.conns.length ≤ POOL_DRAIN_THRESHOLD then
    p
  else
    let idleConns := p.conns.filter fun c => !c.active && !c.closed
    let toClose : Int := (p.conns.length : Int) - POOL_DRAIN_TARGET
    if toClose ≤ 0 then
      p
    else
      { p with conns := drainLoop p.conns idleConns toClose.toNat }

/-- Result of `ControlPool.release`: the successor pool state, the waiter
(front of the queue) the connection was handed to if any, and whether
drain evaluation ran. -/
structure ReleaseResult : Type where
  pool : PoolState
  handedTo : Option Nat
  drainRan : Bool
deriving DecidableEq, Repr

/-- Model of `ControlPool.release(cc)`: marks the connection idle (its `OpConn`
reference is also cleared, not tracked at pool level); when waiters are
queued, re-marks it active and hands it to the front waiter, returning
before any drain; otherwise runs `tryDrain`. -/
def PoolState.release (p : PoolState) (connId : Nat) : ReleaseResult :=
  let conns := p.conns.map fun c =>
    if c.id = connId then { c with active := false } else c
  match p.waiters with
  | w :: rest =>
    let conns := conns.map fun c =>
      if c.id = connId then { c with active := true } else c
    ⟨{ p with conns := conns, waiters := rest }, some w, false⟩
  | [] =>
    ⟨PoolState.tryDrain { p with conns := conns }, none, true⟩

/-! ## Interleaving model of `ControlPool.acquire`

`acquire` is `async`: its roster scan, size check and waiter enqueue are
synchronous, but creating a new connection suspends at `await cc.connect()`
between the size check and `this.conns.push(cc)`.  Each caller is a
coroutine with an explicit phase; a schedule interleaves their resumptions. -/

/-- Where a caller of `acquire()` currently stands. -/
inductive AcqPhase : Type
  | ready
  | connecting
  | gotConn (id : Nat)
  | queued
  | failed
deriving DecidableEq, Repr

/-- Pool plus the phases of the concurrent `acquire` callers (indexed by
position) and the next fresh connection identity. -/
structure AcqSys : Type where
  pool : PoolState
  phases : List AcqPhase
  nextConnId : Nat
deriving DecidableEq, Repr

/-- Resume caller `i` for one synchronous section of `acquire`:

from `ready` it runs the code up to the first suspension — pool-closed
check, roster scan (activating and taking an idle connection), the
`conns.length < maxSize` check (moving to `connecting`, i.e. suspended in
`await cc.connect()`), or the waiter enqueue; from `connecting` it runs
the post-await code: `this.conns.push(cc); cc.setActive(true)` with a
fresh connection. -/
def acqStep (s : AcqSys) (i : Nat) : AcqSys :=
  match s.phases.get? i with
  | some .ready =>
    if s.pool.closed then
      { s with phases := s.phases.set i .failed }
    else
      match findAvail s.pool.conns with
      | some c =>
        let conns := s.pool.conns.map fun cc =>
          if cc.id = c.id then { cc with active := true } else cc
        { s with pool := { s.pool with conns := conns },
                 phases := s.phases.set i (.gotConn c.id) }
      | none =>
        if s.pool.conns.length < s.pool.maxSize then
          { s with phases := s.phases.set i .connecting }
        else
          { s with pool := { s.pool with waiters := s.pool.waiters ++ [i] },
                   phases := s.phases.set i .queued }
  | some .connecting =>
    let c : PoolConn := ⟨s.nextConnId, true, false⟩
    { s with pool := { s.pool with conns := s.pool.conns ++ [c] },
             phases := s.phases.set i (.gotConn c.id),
             nextConnId := s.nextConnId + 1 }
  | _ => s

/-- Run a schedule (a list of caller resumptions) from a system state. -/
def runSched (s : AcqSys) (sched : List Nat) : AcqSys :=
  sched.foldl acqStep s

/-! ## Action runner for `OpConn` (lifecycle claims) -/

/-- The operations that can touch an `OpConn`'s state after creation. -/
inductive OpAction : Type
  | data (d : List Byte)
  | completeA (n : Option Int)
  | closeA
deriving DecidableEq, Repr

/-- Apply one action to an `OpConn` state. -/
def opApply (st : OpConnState) (a : OpAction) : OpConnState :=
  match a with
  | .data d => (st.handleData d).1
  | .completeA n => (st.complete n).1
  | .closeA => st.closeOp.1

/-- Apply a sequence of actions. -/
def opRun (st : OpConnState) (acts : List OpAction) : OpConnState :=
  acts.foldl opApply st

/-! ## Concrete states used by scenarios and witnesses -/

/-- An empty `StartOpOptions` record (every option left out, `tty` falsy). -/
def defaultOpts : StartOpOptions :=
  ⟨none, none, none, false, none, none, none⟩

/-- A pool whose roster holds 25 idle (non-active, non-closed) connections
and no waiters. -/
def pool25 : PoolState :=
  { conns := (List.range 25).map fun i => ⟨i, false, false⟩,
    waiters := [], closed := false, maxSize := MAX_POOL_SIZE }

/-- Two `acquire()` callers racing on an empty pool of `maxSize` 1. -/
def acqDemo : AcqSys :=
  { pool := { conns := [], waiters := [], closed := false, maxSize := 1 },
    phases := [.ready, .ready], nextConnId := 0 }

/-! ## Theorems -/

/-- C6: for every stream tag in {Stdin, Stdout, Stderr, Exit, StdinEOF} and
every payload of any length including 0, decoding the encoding of
(tag, payload) — the one-byte tag followed by the payload, with byte 0
read back as the tag and bytes 1..n as the payload — yields back exactly
(tag, payload). -/
theorem c6_frame_roundtrip (tag : StreamID) (payload : List Byte) :
    decodeFrameTagged (encodeFrame tag payload) = some (tag, payload) := by
  cases tag <;> rfl

/-- C6 witness: the round-trip evaluated at a concrete tag and payload. -/
theorem c6_frame_roundtrip_witness :
    decodeFrameTagged (encodeFrame StreamID.Exit [42]) =
      some (StreamID.Exit, [42]) :=
  c6_frame_roundtrip StreamID.Exit [42]

/-- C7 counterexample: at the empty buffer the code does not signal any
error — `decodeFrame` yields no frame, and both non-TTY handlers
(`OpConn.handleData`, `WSCommand.handleMessage`) return with the state
unchanged and no events emitted (in particular no error event), so no
FrameError of any kind is raised for the empty input. -/
theorem c7_counterexample :
    decodeFrame [] = none ∧
    (OpConnState.fresh false).handleData [] = (OpConnState.fresh false, []) ∧
    (WSState.fresh false).handleMessageBin [] = (WSState.fresh false, []) :=
  ⟨rfl, rfl, rfl⟩

/-- C7 (amended): decoding an empty byte buffer yields no frame; the
non-TTY frame handlers silently ignore the empty input — they leave the
state unchanged and emit no event (no error is signaled). -/
theorem c7_empty_input_ignored (stO : OpConnState) (stW : WSState)
    (hO : stO.tty = false) (hW : stW.tty = false) :
    decodeFrame [] = none ∧
    stO.handleData [] = (stO, []) ∧
    stW.handleMessageBin [] = (stW, []) := by
  refine ⟨rfl, ?_, ?_⟩
  · simp [OpConnState.handleData, hO]
  · simp [WSState.handleMessageBin, hW]

/-- C7 witness: the amended statement at concrete non-TTY states. -/
theorem c7_empty_input_ignored_witness :
    decodeFrame [] = none ∧
    (OpConnState.fresh false).handleData [] = (OpConnState.fresh false, []) ∧
    (WSState.fresh false).handleMessageBin [] = (WSState.fresh false, []) :=
  c7_empty_input_ignored (OpConnState.fresh false) (WSState.fresh false) rfl rfl

/-- C2 (evaluation at the failing input): with `maxSize = 1` and two
concurrent `acquire()` callers, the schedule in which both callers pass
the roster-size check and suspend at `await cc.connect()` before either
pushes results in a roster of 2 connections — exceeding `maxSize`, so the
claimed invariant fails on the code. -/
theorem c2_roster_exceeds_maxSize :
    acqDemo.pool.maxSize = 1 ∧
    acqDemo.phases = [AcqPhase.ready, AcqPhase.ready] ∧
    (runSched acqDemo [0, 1, 0, 1]).pool.conns.length = 2 := by
  decide

/-- C1: when an `op.error` control envelope whose `args.error` is some
string `m` arrives while an `OpConn` is active, the `OpConn` receives an
`error` event carrying `m` followed by `close` — so the caller-level wait
settles rejected with message `m` — the `OpConn` ends closed, and the
Control Connection itself is not closed: it returns to idle
(`opActive = false`) and a subsequent `startOp` on it succeeds. -/
theorem c1_op_error_rejected_conn_idle (st : CCState) (op : OpConnState)
    (m opName : String) (o : StartOpOptions) (code : Int)
    (hc : st.closed = false) (hws : st.wsOpen = true)
    (_ha : st.opActive = true) (hop : st.opConn = some op)
    (hopen : op.closed = false) :
    (st.handleControlMessage ⟨"op.error", none, some m⟩).2.1 =
      [OpEvent.error m, OpEvent.close] ∧
    callerOutcome (st.handleControlMessage ⟨"op.error", none, some m⟩).2.1 code =
      CallerOutcome.rejectedErr m ∧
    (st.handleControlMessage ⟨"op.error", none, some m⟩).2.2 =
      some { op with closed := true } ∧
    (st.handleControlMessage ⟨"op.error", none, some m⟩).1.closed = false ∧
    (st.handleControlMessage ⟨"op.error", none, some m⟩).1.opActive = false ∧
    ∃ res, (st.handleControlMessage ⟨"op.error", none, some m⟩).1.startOp opName o =
      Except.ok res := by
  refine ⟨?_, ?_, ?_, ?_, ?_, ?_⟩ <;>
    simp [CCState.handleControlMessage, CCState.startOp, OpConnState.complete,
      callerOutcome, hop, hopen, hc, hws]

/-- C1 witness: the scenario at a concrete busy connection with error
message "boom". -/
theorem c1_witness :
    ((⟨true, true, some (OpConnState.fresh false), false, true⟩ :
        CCState).handleControlMessage ⟨"op.error", none, some "boom"⟩).2.1 =
      [OpEvent.error "boom", OpEvent.close] ∧
    callerOutcome
      ((⟨true, true, some (OpConnState.fresh false), false, true⟩ :
        CCState).handleControlMessage ⟨"op.error", none, some "boom"⟩).2.1 (-1) =
      CallerOutcome.rejectedErr "boom" ∧
    ((⟨true, true, some (OpConnState.fresh false), false, true⟩ :
        CCState).handleControlMessage ⟨"op.error", none, some "boom"⟩).2.2 =
      some { OpConnState.fresh false with closed := true } ∧
    ((⟨true, true, some (OpConnState.fresh false), false, true⟩ :
        CCState).handleControlMessage ⟨"op.error", none, some "boom"⟩).1.closed = false ∧
    ((⟨true, true, some (OpConnState.fresh false), false, true⟩ :
        CCState).handleControlMessage ⟨"op.error", none, some "boom"⟩).1.opActive = false ∧
    ∃ res, ((⟨true, true, some (OpConnState.fresh false), false, true⟩ :
        CCState).handleControlMessage ⟨"op.error", none, some "boom"⟩).1.startOp
          "exec" defaultOpts = Except.ok res :=
  c1_op_error_rejected_conn_idle
    ⟨true, true, some (OpConnState.fresh false), false, true⟩
    (OpConnState.fresh false) "boom" "exec" defaultOpts (-1)
    rfl rfl rfl rfl rfl

/-- C3: `startOp` fails immediately (with a thrown error, never queuing)
whenever an operation is already in flight or the connection is closed;
on the success path it sends exactly one `op.start` envelope carrying the
operation name and the string-keyed args derived from the options, marks
the connection busy, and returns a fresh `OpConn`. -/
theorem c3_startOp_conflict_or_single_start (st : CCState) (op : String)
    (o : StartOpOptions) :
    (st.opActive = true ∨ st.closed = true →
      ∃ e, st.startOp op o = Except.error e) ∧
    (st.closed = false → st.opActive = false → st.wsOpen = true →
      st.startOp op o =
        Except.ok ({ st with opActive := true,
                             opConn := some (OpConnState.fresh o.tty) },
          OpConnState.fresh o.tty, [⟨op, buildArgs o⟩])) := by
  constructor
  · rintro (h | h) <;> simp [CCState.startOp, h]
    by_cases hc : st.closed = true <;> simp [hc]
  · intro hc ha hws
    simp [CCState.startOp, hc, ha, hws]

/-- C3 witness: conflict on a busy connection and success on an idle one,
at concrete states. -/
theorem c3_witness :
    (∃ e, (⟨true, true, some (OpConnState.fresh false), false, true⟩ :
        CCState).startOp "exec" defaultOpts = Except.error e) ∧
    (⟨true, false, none, false, true⟩ : CCState).startOp "exec" defaultOpts =
      Except.ok
        ((⟨true, true, some (OpConnState.fresh defaultOpts.tty), false, true⟩ :
            CCState),
          OpConnState.fresh defaultOpts.tty, [⟨"exec", buildArgs defaultOpts⟩]) :=
  ⟨(c3_startOp_conflict_or_single_start
      ⟨true, true, some (OpConnState.fresh false), false, true⟩ "exec"
      defaultOpts).1 (Or.inl rfl),
   (c3_startOp_conflict_or_single_start
      ⟨true, false, none, false, true⟩ "exec" defaultOpts).2 rfl rfl rfl⟩

/-- C4: for a non-TTY `OpConn` on a busy connection, an `Exit` data frame
records the exit code (the payload byte, or 0 when the payload is empty)
but does not complete the operation — the `OpConn` stays open and the
connection stays busy; the operation completes only when the `op.complete`
envelope arrives, which closes the `OpConn` with the supplied exit code
(so its wait resolves with that code) and frees the connection. -/
theorem c4_exit_frame_defers_completion (st : CCState) (op : OpConnState)
    (payload : List Byte) (n : Int)
    (hop : st.opConn = some op) (_ha : st.opActive = true)
    (htty : op.tty = false) (hopen : op.closed = false) :
    (st.handleDataFrame (StreamID.Exit.toByte :: payload)).1.opConn =
      some { op with exitCode := exitPayloadCode payload } ∧
    (st.handleDataFrame (StreamID.Exit.toByte :: payload)).1.opActive =
      st.opActive ∧
    (st.handleDataFrame (StreamID.Exit.toByte :: payload)).2 =
      [OpEvent.exit (exitPayloadCode payload)] ∧
    ({ op with exitCode := exitPayloadCode payload } : OpConnState).closed =
      false ∧
    ((st.handleDataFrame
        (StreamID.Exit.toByte :: payload)).1.handleControlMessage
        ⟨"op.complete", some n, none⟩).2.2 =
      some { op with exitCode := n, closed := true } ∧
    ((st.handleDataFrame
        (StreamID.Exit.toByte :: payload)).1.handleControlMessage
        ⟨"op.complete", some n, none⟩).2.1 = [OpEvent.close] ∧
    ((st.handleDataFrame
        (StreamID.Exit.toByte :: payload)).1.handleControlMessage
        ⟨"op.complete", some n, none⟩).1.opActive = false ∧
    ((st.handleDataFrame
        (StreamID.Exit.toByte :: payload)).1.handleControlMessage
        ⟨"op.complete", some n, none⟩).1.opConn = none ∧
    ({ op with exitCode := n, closed := true } : OpConnState).wait =
      WaitStatus.immediate n := by
  refine ⟨?_, ?_, ?_, ?_, ?_, ?_, ?_, ?_, ?_⟩ <;>
    simp [CCState.handleDataFrame, CCState.handleControlMessage,
      OpConnState.handleData, OpConnState.complete, OpConnState.wait,
      StreamID.toByte, hop, htty, hopen]

/-- C4 witness: the deferred-completion scenario at a concrete busy
non-TTY connection, an `Exit` frame with payload byte 7, and an
`op.complete` envelope carrying exit code 7. -/
theorem c4_witness :
    ((⟨true, true, some (OpConnState.fresh false), false, true⟩ :
        CCState).handleDataFrame (StreamID.Exit.toByte :: [7])).1.opConn =
      some { OpConnState.fresh false with exitCode := exitPayloadCode [7] } ∧
    ((⟨true, true, some (OpConnState.fresh false), false, true⟩ :
        CCState).handleDataFrame (StreamID.Exit.toByte :: [7])).1.opActive =
      (⟨true, true, some (OpConnState.fresh false), false, true⟩ :
        CCState).opActive ∧
    ((⟨true, true, some (OpConnState.fresh false), false, true⟩ :
        CCState).handleDataFrame (StreamID.Exit.toByte :: [7])).2 =
      [OpEvent.exit (exitPayloadCode [7])] ∧
    ({ OpConnState.fresh false with exitCode := exitPayloadCode [7] } :
        OpConnState).closed = false ∧
    (((⟨true, true, some (OpConnState.fresh false), false, true⟩ :
        CCState).handleDataFrame
        (StreamID.Exit.toByte :: [7])).1.handleControlMessage
        ⟨"op.complete", some 7, none⟩).2.2 =
      some { OpConnState.fresh false with exitCode := 7, closed := true } ∧
    (((⟨true, true, some (OpConnState.fresh false), false, true⟩ :
        CCState).handleDataFrame
        (StreamID.Exit.toByte :: [7])).1.handleControlMessage
        ⟨"op.complete", some 7, none⟩).2.1 = [OpEvent.close] ∧
    (((⟨true, true, some (OpConnState.fresh false), false, true⟩ :
        CCState).handleDataFrame
        (StreamID.Exit.toByte :: [7])).1.handleControlMessage
        ⟨"op.complete", some 7, none⟩).1.opActive = false ∧
    (((⟨true, true, some (OpConnState.fresh false), false, true⟩ :
        CCState).handleDataFrame
        (StreamID.Exit.toByte :: [7])).1.handleControlMessage
        ⟨"op.complete", some 7, none⟩).1.opConn = none ∧
    ({ OpConnState.fresh false with exitCode := 7, closed := true } :
        OpConnState).wait = WaitStatus.immediate 7 :=
  c4_exit_frame_defers_completion
    ⟨true, true, some (OpConnState.fresh false), false, true⟩
    (OpConnState.fresh false) [7] 7 rfl rfl rfl rfl

/-- C5: for a non-TTY Command Session, (a) if the transport closes while
no `Exit` frame has been delivered (exit code still -1, not done), the
session reports an error and emits no exit event, for every close code;
(b) an `Exit` frame on a live session records its code, marks the session
done and emits `exit` with that code exactly then; (c) once done, no
further binary message emits an exit event; (d) once done, a transport
close emits nothing — so after an `Exit` frame a close produces no error
and the exit event was emitted exactly once. -/
theorem c5_close_without_exit_is_error (st : WSState) (closeCode : Nat)
    (payload p2 : List Byte) (htty : st.tty = false) :
    (st.done = false → st.exitCode = -1 →
      st.handleClose closeCode =
        ({ st with done := true },
          [OpEvent.error (closeErrMsg st closeCode)])) ∧
    (st.done = false →
      st.handleMessageBin (StreamID.Exit.toByte :: payload) =
        ({ st with exitCode := exitPayloadCode payload, done := true,
                   wsOpen := false },
          [OpEvent.exit (exitPayloadCode payload)])) ∧
    (st.done = true → ∀ e ∈ (st.handleMessageBin p2).2, ∀ c, e ≠ .exit c) ∧
    (st.done = true → st.handleClose closeCode = (st, [])) := by
  refine ⟨?_, ?_, ?_, ?_⟩
  · intro hd hx
    simp [WSState.handleClose, closeErrMsg, hd, hx, htty]
  · intro hd
    simp [WSState.handleMessageBin, StreamID.toByte, htty, hd]
  · intro hd
    match p2 with
    | [] => simp [WSState.handleMessageBin, htty]
    | b :: rest =>
      simp only [WSState.handleMessageBin, htty, Bool.false_eq_true,
        if_false, hd]
      split_ifs <;> simp_all
  · intro hd
    simp [WSState.handleClose, hd]

/-- C5 witness: a fresh non-TTY session closed with code 1006 before any
exit frame reports an error; the same session given an `Exit` frame with
code 42 emits `exit 42`; a done session ignores further frames and the
close. -/
theorem c5_witness :
    ((WSState.fresh false).handleClose 1006 =
      ({ WSState.fresh false with done := true },
        [OpEvent.error (closeErrMsg (WSState.fresh false) 1006)])) ∧
    ((WSState.fresh false).handleMessageBin (StreamID.Exit.toByte :: [42]) =
      ({ WSState.fresh false with exitCode := exitPayloadCode [42],
                                  done := true, wsOpen := false },
        [OpEvent.exit (exitPayloadCode [42])])) ∧
    (∀ e ∈ ((⟨false, 42, true, none, false⟩ : WSState).handleMessageBin
        (StreamID.Exit.toByte :: [7])).2, ∀ c, e ≠ .exit c) ∧
    ((⟨false, 42, true, none, false⟩ : WSState).handleClose 1000 =
      ((⟨false, 42, true, none, false⟩ : WSState), [])) :=
  ⟨(c5_close_without_exit_is_error (WSState.fresh false) 1006 [42]
      (StreamID.Exit.toByte :: [7]) rfl).1 rfl rfl,
   (c5_close_without_exit_is_error (WSState.fresh false) 1006 [42]
      (StreamID.Exit.toByte :: [7]) rfl).2.1 rfl,
   (c5_close_without_exit_is_error (⟨false, 42, true, none, false⟩ : WSState)
      1000 [42] (StreamID.Exit.toByte :: [7]) rfl).2.2.1 rfl,
   (c5_close_without_exit_is_error (⟨false, 42, true, none, false⟩ : WSState)
      1000 [42] (StreamID.Exit.toByte :: [7]) rfl).2.2.2 rfl⟩

/-- C8: a `release()` while at least one waiter is queued hands the
connection to the front (oldest, FIFO) waiter, runs no drain evaluation,
leaves the roster membership unchanged, ends with the released connection
still marked active, and the `acquire` roster scan can never select it. -/
theorem c8_release_fifo_handoff (p : PoolState) (connId w : Nat)
    (rest : List Nat) (hw : p.waiters = w :: rest) :
    (p.release connId).handedTo = some w ∧
    (p.release connId).drainRan = false ∧
    (p.release connId).pool.waiters = rest ∧
    (p.release connId).pool.conns.map PoolConn.id =
      p.conns.map PoolConn.id ∧
    (∀ c ∈ (p.release connId).pool.conns, c.id = connId →
      c.active = true) ∧
    (∀ c, findAvail (p.release connId).pool.conns = some c →
      c.id ≠ connId) := by
  refine ⟨?_, ?_, ?_, ?_, ?_, ?_⟩ <;>
    simp only [PoolState.release, hw, List.map_map]
  · apply List.map_congr_left
    intro c _
    by_cases h : c.id = connId <;> simp [h, Function.comp]
  · intro c hc hid
    rcases List.mem_map.1 hc with ⟨c0, _, hc0⟩
    by_cases h : ((if c0.id = connId then { c0 with active := false }
        else c0 : PoolConn)).id = connId
    · rw [← hc0]
      simp [Function.comp, h]
    · exfalso
      apply h
      rw [show ((if c0.id = connId then { c0 with active := false }
          else c0 : PoolConn)).id = c.id from by
        rw [← hc0]; simp [Function.comp, h], hid]
  · intro c hfind hid
    have hpc := List.find?_some hfind
    have hmem := List.mem_of_find?_eq_some hfind
    rcases List.mem_map.1 hmem with ⟨c0, _, hc0⟩
    simp only [Bool.and_eq_true, Bool.not_eq_eq_eq_not, Bool.not_true] at hpc
    by_cases h : c0.id = connId
    · rw [← hc0] at hpc
      simp [Function.comp, h] at hpc
    · apply h
      rw [show c0.id = c.id from by rw [← hc0]; simp [Function.comp, h], hid]

/-- C8 witness: releasing connection 5 into a pool with waiters
`[3, 4, 9]` hands it to waiter 3, leaves `[4, 9]` queued, and skips
drain. -/
theorem c8_witness :
    (PoolState.release ⟨[⟨5, true, false⟩], [3, 4, 9], false, 100⟩ 5).handedTo =
      some 3 ∧
    (PoolState.release ⟨[⟨5, true, false⟩], [3, 4, 9], false, 100⟩ 5).drainRan =
      false ∧
    (PoolState.release
      ⟨[⟨5, true, false⟩], [3, 4, 9], false, 100⟩ 5).pool.waiters = [4, 9] ∧
    (PoolState.release
        ⟨[⟨5, true, false⟩], [3, 4, 9], false, 100⟩ 5).pool.conns.map
        PoolConn.id =
      ([⟨5, true, false⟩] : List PoolConn).map PoolConn.id ∧
    (∀ c ∈ (PoolState.release
        ⟨[⟨5, true, false⟩], [3, 4, 9], false, 100⟩ 5).pool.conns,
      c.id = 5 → c.active = true) ∧
    (∀ c, findAvail (PoolState.release
        ⟨[⟨5, true, false⟩], [3, 4, 9], false, 100⟩ 5).pool.conns = some c →
      c.id ≠ 5) :=
  c8_release_fifo_handoff ⟨[⟨5, true, false⟩], [3, 4, 9], false, 100⟩ 5 3
    [4, 9] rfl

/-- A connection whose identity differs from every drained idle
connection survives `drainLoop`. -/
theorem mem_drainLoop (idle : List PoolConn) (n : Nat)
    (conns : List PoolConn) (c : PoolConn) (hc : c ∈ conns)
    (hne : ∀ cc ∈ idle, c.id ≠ cc.id) : c ∈ drainLoop conns idle n := by
  induction idle generalizing conns n with
  | nil => simpa [drainLoop] using hc
  | cons cc restIdle ih =>
    cases n with
    | zero => simpa [drainLoop] using hc
    | succ n =>
      simp only [drainLoop]
      apply ih
      · exact List.mem_filter.2 ⟨hc, by
          simpa using hne cc (by simp)⟩
      · intro cc2 h2
        exact hne cc2 (by simp [h2])

/-- C9: (a) on a pool whose roster holds 25 idle connections and no
waiters, a single `release()` drains the roster to exactly
`POOL_DRAIN_TARGET = 10`; (b) drain never removes a connection that is
active or already closed (assuming distinct connection identities);
(c) drain does nothing when the roster size is at or below
`POOL_DRAIN_THRESHOLD`; (d) no drain evaluation runs on a release while
waiters are queued. -/
theorem c9_drain_to_target :
    (PoolState.release pool25 0).pool.conns.length = POOL_DRAIN_TARGET ∧
    (∀ (p : PoolState) (c : PoolConn),
      (p.conns.map PoolConn.id).Nodup → c ∈ p.conns →
      c.active = true ∨ c.closed = true → c ∈ p.tryDrain.conns) ∧
    (∀ p : PoolState, p.conns.length ≤ POOL_DRAIN_THRESHOLD →
      p.tryDrain = p) ∧
    (∀ (p : PoolState) (connId w : Nat) (rest : List Nat),
      p.waiters = w :: rest → (p.release connId).drainRan = false) := by
  refine ⟨by decide, ?_, ?_, ?_⟩
  · intro p c hnd hmem hac
    by_cases h1 : p.closed = true ∨ p.conns.length ≤ POOL_DRAIN_THRESHOLD
    · simpa [PoolState.tryDrain, h1] using hmem
    · by_cases h2 : ((p.conns.length : Int) - (POOL_DRAIN_TARGET : Int)) ≤ 0
      · simpa [PoolState.tryDrain, h1, h2] using hmem
      · simp only [PoolState.tryDrain, h1, h2, if_false, ite_false]
        apply mem_drainLoop _ _ _ _ hmem
        intro cc hcc hid
        have hcc' := List.mem_filter.1 hcc
        have hcc2 := hcc'.2
        simp only [Bool.and_eq_true, Bool.not_eq_eq_eq_not, Bool.not_true] at hcc2
        have : c = cc := List.inj_on_of_nodup_map hnd hmem hcc'.1 hid
        subst this
        rcases hac with h | h
        · rw [h] at hcc2; exact absurd hcc2.1 (by simp)
        · rw [h] at hcc2; exact absurd hcc2.2 (by simp)
  · intro p h
    unfold PoolState.tryDrain
    rw [if_pos (Or.inr h)]
  · intro p connId w rest hw
    simp [PoolState.release, hw]

/-- C9 witness: drain preservation, the threshold guard and the waiter
guard evaluated at concrete pools. -/
theorem c9_witness :
    (⟨99, true, false⟩ : PoolConn) ∈
      (PoolState.tryDrain
        ⟨⟨99, true, false⟩ :: (List.range 24).map (fun i => ⟨i, false, false⟩),
          [], false, 100⟩).conns ∧
    PoolState.tryDrain ⟨[⟨0, false, false⟩], [], false, 100⟩ =
      ⟨[⟨0, false, false⟩], [], false, 100⟩ ∧
    (PoolState.release ⟨[⟨5, true, false⟩], [3], false, 100⟩ 5).drainRan =
      false :=
  ⟨c9_drain_to_target.2.1
      ⟨⟨99, true, false⟩ :: (List.range 24).map (fun i => ⟨i, false, false⟩),
        [], false, 100⟩
      ⟨99, true, false⟩ (by decide) (by decide) (Or.inl rfl),
   c9_drain_to_target.2.2.1 ⟨[⟨0, false, false⟩], [], false, 100⟩
      (by decide),
   c9_drain_to_target.2.2.2 ⟨[⟨5, true, false⟩], [3], false, 100⟩ 5 3 [] rfl⟩

/-- Lemma: `handleData` never touches the `closed` flag. -/
theorem handleData_closed (st : OpConnState) (d : List Byte) :
    (st.handleData d).1.closed = st.closed := by
  unfold OpConnState.handleData
  split
  · rfl
  · cases d with
    | nil => rfl
    | cons b rest =>
      dsimp only
      split_ifs <;> rfl

/-- Every `OpConn` action preserves a set `closed` flag. -/
theorem opApply_closed (st : OpConnState) (a : OpAction)
    (h : st.closed = true) : (opApply st a).closed = true := by
  cases a with
  | data d => rw [opApply, handleData_closed]; exact h
  | completeA n => simp [opApply, OpConnState.complete, h]
  | closeA => simp [opApply, OpConnState.closeOp, h]

/-- C10: `complete()` and `close()` each set the `closed` flag; once an
`OpConn` is closed, every later `complete()` or `close()` call is a
no-op (state unchanged, nothing emitted, in particular the stored exit
code cannot change through them), the flag remains true under any further
sequence of data/complete/close actions, and `wait()` resolves
immediately with the stored exit code. -/
theorem c10_closed_permanent :
    (∀ (st : OpConnState) (n : Option Int),
      (st.complete n).1.closed = true ∧ st.closeOp.1.closed = true) ∧
    (∀ (st : OpConnState) (n : Option Int) (acts : List OpAction),
      st.closed = true →
      st.complete n = (st, []) ∧
      st.closeOp = (st, []) ∧
      (opRun st acts).closed = true ∧
      st.wait = WaitStatus.immediate st.exitCode) := by
  constructor
  · intro st n
    constructor
    · unfold OpConnState.complete
      split_ifs with h
      · exact h
      · rfl
    · unfold OpConnState.closeOp
      split_ifs with h
      · exact h
      · rfl
  · intro st n acts h
    refine ⟨by simp [OpConnState.complete, h], by simp [OpConnState.closeOp, h],
      ?_, by simp [OpConnState.wait, h]⟩
    induction acts generalizing st with
    | nil => simpa [opRun] using h
    | cons a rest ih =>
      rw [show opRun st (a :: rest) = opRun (opApply st a) rest from rfl]
      exact ih (opApply st a) (opApply_closed st a h)

/-- C10 witness: the closing paths and the permanence of closure at a
concrete closed `OpConn` with stored exit code 3. -/
theorem c10_witness :
    ((OpConnState.fresh false).complete (some 3)).1.closed = true ∧
    (OpConnState.fresh false).closeOp.1.closed = true ∧
    (⟨true, 3, false⟩ : OpConnState).complete (some 9) =
      ((⟨true, 3, false⟩ : OpConnState), []) ∧
    (⟨true, 3, false⟩ : OpConnState).closeOp =
      ((⟨true, 3, false⟩ : OpConnState), []) ∧
    (opRun ⟨true, 3, false⟩
      [OpAction.data (StreamID.Exit.toByte :: [9]), OpAction.completeA (some 9),
        OpAction.closeA]).closed = true ∧
    (⟨true, 3, false⟩ : OpConnState).wait = WaitStatus.immediate 3 :=
  ⟨(c10_closed_permanent.1 (OpConnState.fresh false) (some 3)).1,
   (c10_closed_permanent.1 (OpConnState.fresh false) (some 3)).2,
   (c10_closed_permanent.2 ⟨true, 3, false⟩ (some 9)
      [OpAction.data (StreamID.Exit.toByte :: [9]), OpAction.completeA (some 9),
        OpAction.closeA] rfl).1,
   (c10_closed_permanent.2 ⟨true, 3, false⟩ (some 9)
      [OpAction.data (StreamID.Exit.toByte :: [9]), OpAction.completeA (some 9),
        OpAction.closeA] rfl).2.1,
   (c10_closed_permanent.2 ⟨true, 3, false⟩ (some 9)
      [OpAction.data (StreamID.Exit.toByte :: [9]), OpAction.completeA (some 9),
        OpAction.closeA] rfl).2.2.1,
   (c10_closed_permanent.2 ⟨true, 3, false⟩ (some 9)
      [OpAction.data (StreamID.Exit.toByte :: [9]), OpAction.completeA (some 9),
        OpAction.closeA] rfl).2.2.2⟩

end Sprites
